import Mathlib

/-!
A shallow embedding of `cartography/intel/gcp/__init__.py`: the GCP ingestion
orchestration pipeline (`start_gcp_ingestion` and its helpers).

The orchestrator is modelled as a pure function from an environment (the
outcomes of the external collaborators: credential acquisition, project
enumeration, and whether each per-project sync raises) to the trace of
collaborator invocations it performs, together with the exception, if any,
that propagates out of it.  Each invocation records the arguments the claims
care about: the update tag and the `common_job_parameters` mapping.
-/

/-- The credential value returned by `GoogleCredentials.get_application_default`
(an identity token treated as an abstract value). -/
abbrev Credentials := Nat

/-- A project record as returned by the enumerator `crm.get_gcp_projects`: a
string-keyed dictionary, e.g. `[("projectId", "my-project-id-12345")]`. -/
abbrev ProjectRecord := List (String × String)

/-- The `common_job_parameters` mapping: string keys to integer values. -/
abbrev Params := List (String × Nat)

/-- The `config` object passed to `start_gcp_ingestion`; the orchestrator reads
only `config.update_tag`. -/
structure Config where
  update_tag : Nat
deriving Repr, DecidableEq

/-- An API client handle built by `googleapiclient.discovery.build` from the
credentials (name and version of the API surface are encoded in the
constructor). -/
inductive Handle where
  | crmV1 (credentials : Credentials)
  | crmV2 (credentials : Credentials)
  | computeV1 (credentials : Credentials)
deriving Repr, DecidableEq

/-- `_get_crm_resource_v1`: builds the Cloud Resource Manager v1 handle. -/
def _get_crm_resource_v1 (credentials : Credentials) : Handle :=
  Handle.crmV1 credentials

/-- `_get_crm_resource_v2`: builds the Cloud Resource Manager v2 handle. -/
def _get_crm_resource_v2 (credentials : Credentials) : Handle :=
  Handle.crmV2 credentials

/-- `_get_compute_resource`: builds the Compute v1 handle. -/
def _get_compute_resource (credentials : Credentials) : Handle :=
  Handle.computeV1 credentials

/-- The `Resources` namedtuple: one handle per API surface. -/
structure Resources where
  crm_v1 : Handle
  crm_v2 : Handle
  compute : Handle
deriving Repr, DecidableEq

/-- `_initialize_resources`: creates the namedtuple of all resource objects. -/
def _initialize_resources (credentials : Credentials) : Resources :=
  { crm_v1 := _get_crm_resource_v1 credentials,
    crm_v2 := _get_crm_resource_v2 credentials,
    compute := _get_compute_resource credentials }

/-- The level of a logging call made by the orchestrator. -/
inductive LogLevel where
  | debug
  | info
  | warning
  | error
deriving Repr, DecidableEq

/-- One collaborator invocation (or logging call) performed during a run, with
the arguments the specification talks about. -/
inductive Event where
  | initResources
  | syncOrganizations (handle : Handle) (gcp_update_tag : Nat) (common_job_parameters : Params)
  | syncFolders (handle : Handle) (gcp_update_tag : Nat) (common_job_parameters : Params)
  | getProjects (handle : Handle)
  | syncGcpProjects (projects : List ProjectRecord) (gcp_update_tag : Nat)
      (common_job_parameters : Params)
  | computeSync (handle : Handle) (project_id : String) (gcp_update_tag : Nat)
      (common_job_parameters : Params)
  | runAnalysisJob (job : String) (common_job_parameters : Params)
  | log (level : LogLevel) (message : String)
deriving Repr, DecidableEq

/-- An exception that can propagate out of the orchestrator: a Python
`KeyError` from `project["projectId"]`, or an exception raised by a
per-project `compute.sync` call. -/
inductive RunError where
  | keyError (key : String)
  | computeSyncError (project_id : String)
deriving Repr, DecidableEq

/-- The run environment: the outcomes of the external collaborators.
`credentials = none` means `GoogleCredentials.get_application_default` raises
`ApplicationDefaultCredentialsError`; `projects` is what
`crm.get_gcp_projects` returns; `computeSyncRaises` says, per project id,
whether that project's `compute.sync` call raises; the two permission flags
say whether the organization / folder listing hits a permission error. -/
structure Env where
  credentials : Option Credentials
  projects : List ProjectRecord
  computeSyncRaises : String → Bool
  orgsPermissionDenied : Bool
  foldersPermissionDenied : Bool

/-- Modelled from the spec: `crm.sync_gcp_organizations` lives in
`cartography.intel.gcp.crm`, which is not under src/.  Spec section 4.2:
insufficient permission to list organizations is absorbed inside the syncer
(it persists an empty result set rather than propagate upward), so the call
never raises, whether or not the listing hit a permission error. -/
def crm.sync_gcp_organizations (_permission_denied : Bool) (handle : Handle)
    (gcp_update_tag : Nat) (common_job_parameters : Params) : List Event :=
  [Event.syncOrganizations handle gcp_update_tag common_job_parameters]

/-- Modelled from the spec: `crm.sync_gcp_folders` is repository code not under
src/; as for organizations, spec section 4.2 makes a permission failure
non-fatal and absorbed inside the syncer. -/
def crm.sync_gcp_folders (_permission_denied : Bool) (handle : Handle)
    (gcp_update_tag : Nat) (common_job_parameters : Params) : List Event :=
  [Event.syncFolders handle gcp_update_tag common_job_parameters]

/-- Modelled from the spec: `crm.get_gcp_projects` (repository code not under
src/) lists all projects visible to the identity, a finite, non-lazy
collection of records (spec section 4.3); the environment supplies the list. -/
def crm.get_gcp_projects (env : Env) (handle : Handle) :
    List Event × List ProjectRecord :=
  ([Event.getProjects handle], env.projects)

/-- Modelled from the spec: `crm.sync_gcp_projects` (repository code not under
src/) persists the full project list as a batch, a graph-write collaborator
that is side-effecting only on the graph store (spec section 6). -/
def crm.sync_gcp_projects (projects : List ProjectRecord) (gcp_update_tag : Nat)
    (common_job_parameters : Params) : List Event :=
  [Event.syncGcpProjects projects gcp_update_tag common_job_parameters]

/-- Modelled from the spec: `compute.sync` (`cartography.intel.gcp.compute`, not
under src/) is the per-project graph-write collaborator (spec section 6);
per-project sync failure is possible and its propagation is delegated to the
orchestrator (spec sections 4.4 and 7), so the environment decides, per
project id, whether this call raises. -/
def compute.sync (env : Env) (handle : Handle) (project_id : String)
    (gcp_update_tag : Nat) (common_job_parameters : Params) :
    List Event × Option RunError :=
  ([Event.computeSync handle project_id gcp_update_tag common_job_parameters],
   if env.computeSyncRaises project_id then
     some (RunError.computeSyncError project_id)
   else none)

/-- `run_analysis_job` from `cartography.util` (an external collaborator): runs
one named post-processing analysis job. -/
def run_analysis_job (job : String) (common_job_parameters : Params) : List Event :=
  [Event.runAnalysisJob job common_job_parameters]

/-- `_sync_single_project`: handles graph sync for a single GCP project by
calling `compute.sync` on the compute handle. -/
def _sync_single_project (env : Env) (resources : Resources) (project_id : String)
    (gcp_update_tag : Nat) (common_job_parameters : Params) :
    List Event × Option RunError :=
  compute.sync env resources.compute project_id gcp_update_tag common_job_parameters

/-- The `for project in projects` loop of `_sync_multiple_projects`: for each
record, read `project["projectId"]` (a missing key raises `KeyError`), log at
info level, and call `_sync_single_project`; the first exception raised stops
the loop and propagates. -/
def syncProjectsLoop (env : Env) (resources : Resources) (gcp_update_tag : Nat)
    (common_job_parameters : Params) : List ProjectRecord → List Event × Option RunError
  | [] => ([], none)
  | project :: rest =>
    match List.lookup "projectId" project with
    | none => ([], some (RunError.keyError "projectId"))
    | some project_id =>
      let r := _sync_single_project env resources project_id gcp_update_tag
        common_job_parameters
      match r.snd with
      | some e =>
        (Event.log LogLevel.info ("Syncing GCP project " ++ project_id ++ ".") :: r.fst,
         some e)
      | none =>
        let rest_r := syncProjectsLoop env resources gcp_update_tag
          common_job_parameters rest
        (Event.log LogLevel.info ("Syncing GCP project " ++ project_id ++ ".") ::
           r.fst ++ rest_r.fst,
         rest_r.snd)

/-- `_sync_multiple_projects`: logs at debug level, persists the full project
list as a batch via `crm.sync_gcp_projects`, then iterates the list in order. -/
def _sync_multiple_projects (env : Env) (resources : Resources)
    (projects : List ProjectRecord) (gcp_update_tag : Nat)
    (common_job_parameters : Params) : List Event × Option RunError :=
  let r := syncProjectsLoop env resources gcp_update_tag common_job_parameters projects
  (Event.log LogLevel.debug "Syncing GCP projects." ::
     crm.sync_gcp_projects projects gcp_update_tag common_job_parameters ++ r.fst,
   r.snd)

/-- The `logger.debug` message emitted when credential acquisition raises. -/
def credDebugMessage : String :=
  "Error occurred calling GoogleCredentials.get_application_default()."

/-- The `logger.error` message emitted when credential acquisition raises
(source text, joined to one line): it names the likely remediation, namely the
credential configuration and the securityReviewer role. -/
def credErrorMessage : String :=
  "Unable to initialize Google Compute Platform creds. If you do not have GCP data or do not want to load GCP data then you can ignore this message. Otherwise, the error code is: %s Make sure your GCP credentials are configured correctly, your credentials file (if any) is valid, and that the identity you are authenticating to has the securityReviewer role attached."

/-- `start_gcp_ingestion`: builds `common_job_parameters`, acquires default
credentials (on `ApplicationDefaultCredentialsError`: logs at debug and error
level and returns), builds the resource handles, syncs organizations then
folders, enumerates projects, syncs the projects, and runs the analysis job. -/
def start_gcp_ingestion (env : Env) (config : Config) :
    List Event × Option RunError :=
  let common_job_parameters : Params := [("UPDATE_TAG", config.update_tag)]
  match env.credentials with
  | none =>
    ([Event.log LogLevel.debug credDebugMessage,
      Event.log LogLevel.error credErrorMessage], none)
  | some credentials =>
    let resources := _initialize_resources credentials
    let hierarchy : List Event :=
      Event.initResources ::
        crm.sync_gcp_organizations env.orgsPermissionDenied resources.crm_v1
          config.update_tag common_job_parameters ++
        crm.sync_gcp_folders env.foldersPermissionDenied resources.crm_v2
          config.update_tag common_job_parameters
    let enum := crm.get_gcp_projects env resources.crm_v1
    let r := _sync_multiple_projects env resources enum.snd config.update_tag
      common_job_parameters
    match r.snd with
    | some e => (hierarchy ++ enum.fst ++ r.fst, some e)
    | none =>
      (hierarchy ++ enum.fst ++ r.fst ++
        run_analysis_job "gcp_compute_asset_inet_exposure.json" common_job_parameters,
       none)

/-! ## Observations over run traces -/

/-- The update tag an event was invoked with, for the events that receive one. -/
def tagOf : Event → Option Nat
  | Event.syncOrganizations _ t _ => some t
  | Event.syncFolders _ t _ => some t
  | Event.syncGcpProjects _ t _ => some t
  | Event.computeSync _ _ t _ => some t
  | _ => none

/-- The `common_job_parameters` an event was invoked with, for the events that
receive the mapping. -/
def paramsOf : Event → Option Params
  | Event.syncOrganizations _ _ ps => some ps
  | Event.syncFolders _ _ ps => some ps
  | Event.syncGcpProjects _ _ ps => some ps
  | Event.computeSync _ _ _ ps => some ps
  | Event.runAnalysisJob _ ps => some ps
  | _ => none

/-- Whether an event uses exactly the given update tag and the given
`common_job_parameters` (vacuously true for events that carry neither). -/
def eventUsesTag (gcp_update_tag : Nat) (common_job_parameters : Params)
    (e : Event) : Bool :=
  (match tagOf e with
   | some t => decide (t = gcp_update_tag)
   | none => true) &&
  (match paramsOf e with
   | some q => decide (q = common_job_parameters)
   | none => true)

/-- The per-project `compute.sync` invocations of a trace, in order, each with
the project id, the tag and the parameters it received. -/
def computeCalls (trace : List Event) : List (String × Nat × Params) :=
  trace.filterMap fun e =>
    match e with
    | Event.computeSync _ project_id t ps => some (project_id, t, ps)
    | _ => none

/-- How many times the analysis job was invoked in a trace. -/
def countAnalysisJobs (trace : List Event) : Nat :=
  (trace.filter fun e =>
    match e with
    | Event.runAnalysisJob _ _ => true
    | _ => false).length

/-- How many logging calls at the given level a trace holds. -/
def countLogsAt (level : LogLevel) (trace : List Event) : Nat :=
  (trace.filter fun e =>
    match e with
    | Event.log l _ => decide (l = level)
    | _ => false).length

/-- The `common_job_parameters` mapping as `start_gcp_ingestion` builds it. -/
def canonicalParams (config : Config) : Params :=
  [("UPDATE_TAG", config.update_tag)]

/-- The trace the project loop produces when every record has a
`"projectId"` key and no per-project sync raises: one info log and one
`compute.sync` invocation per record, in order. -/
def expectedProjectEvents (resources : Resources) (gcp_update_tag : Nat)
    (common_job_parameters : Params) : List ProjectRecord → List Event
  | [] => []
  | project :: rest =>
    Event.log LogLevel.info
        ("Syncing GCP project " ++ (List.lookup "projectId" project).getD "" ++ ".") ::
      Event.computeSync resources.compute
        ((List.lookup "projectId" project).getD "") gcp_update_tag common_job_parameters ::
      expectedProjectEvents resources gcp_update_tag common_job_parameters rest

/-- The events a run with credentials emits before the per-project loop:
resource construction, organizations sync, folders sync, project enumeration,
the debug log and the batch project sync. -/
def headEvents (env : Env) (config : Config) (credentials : Credentials) : List Event :=
  [Event.initResources,
   Event.syncOrganizations (_initialize_resources credentials).crm_v1
     config.update_tag (canonicalParams config),
   Event.syncFolders (_initialize_resources credentials).crm_v2
     config.update_tag (canonicalParams config),
   Event.getProjects (_initialize_resources credentials).crm_v1,
   Event.log LogLevel.debug "Syncing GCP projects.",
   Event.syncGcpProjects env.projects config.update_tag (canonicalParams config)]

/-- The full trace of a run in which nothing raises. -/
def successTrace (env : Env) (config : Config) (credentials : Credentials) : List Event :=
  headEvents env config credentials ++
    expectedProjectEvents (_initialize_resources credentials) config.update_tag
      (canonicalParams config) env.projects ++
    [Event.runAnalysisJob "gcp_compute_asset_inet_exposure.json" (canonicalParams config)]

/-! ## Structural lemmas about the project loop and the orchestrator -/

/-- A record whose `"projectId"` lookup succeeds and whose sync does not raise. -/
def recordOk (env : Env) (project : ProjectRecord) : Prop :=
  ∃ project_id, List.lookup "projectId" project = some project_id ∧
    env.computeSyncRaises project_id = false

theorem syncProjectsLoop_ok (env : Env) (resources : Resources) (tag : Nat)
    (ps : Params) (l : List ProjectRecord) (hok : ∀ p ∈ l, recordOk env p) :
    syncProjectsLoop env resources tag ps l =
      (expectedProjectEvents resources tag ps l, none) := by
  induction l with
  | nil => rfl
  | cons p rest ih =>
    obtain ⟨pid, hlook, hraise⟩ := hok p (by simp)
    have ihrest := ih (fun q hq => hok q (by simp [hq]))
    simp only [syncProjectsLoop, hlook, _sync_single_project, compute.sync, hraise,
      if_false, ihrest, expectedProjectEvents, Bool.false_eq_true, ite_false]
    simp [hlook]

theorem syncProjectsLoop_keyError (env : Env) (resources : Resources) (tag : Nat)
    (ps : Params) (pre post : List ProjectRecord) (bad : ProjectRecord)
    (hpre : ∀ p ∈ pre, recordOk env p)
    (hbad : List.lookup "projectId" bad = none) :
    syncProjectsLoop env resources tag ps (pre ++ bad :: post) =
      (expectedProjectEvents resources tag ps pre, some (RunError.keyError "projectId")) := by
  induction pre with
  | nil =>
    simp only [List.nil_append, syncProjectsLoop, hbad, expectedProjectEvents]
  | cons p rest ih =>
    obtain ⟨pid, hlook, hraise⟩ := hpre p (by simp)
    have ihrest := ih (fun q hq => hpre q (by simp [hq]))
    simp only [List.cons_append, syncProjectsLoop, hlook, _sync_single_project,
      compute.sync, hraise, Bool.false_eq_true, ite_false, ihrest, expectedProjectEvents]
    simp [hlook, ihrest]

theorem syncProjectsLoop_raise (env : Env) (resources : Resources) (tag : Nat)
    (ps : Params) (pre post : List ProjectRecord) (bad : ProjectRecord)
    (pid : String) (hpre : ∀ p ∈ pre, recordOk env p)
    (hbad : List.lookup "projectId" bad = some pid)
    (hraise : env.computeSyncRaises pid = true) :
    syncProjectsLoop env resources tag ps (pre ++ bad :: post) =
      (expectedProjectEvents resources tag ps pre ++
         [Event.log LogLevel.info ("Syncing GCP project " ++ pid ++ "."),
          Event.computeSync resources.compute pid tag ps],
       some (RunError.computeSyncError pid)) := by
  induction pre with
  | nil =>
    simp [syncProjectsLoop, hbad, _sync_single_project, compute.sync, hraise,
      expectedProjectEvents]
  | cons p rest ih =>
    obtain ⟨qid, hlook, hqraise⟩ := hpre p (by simp)
    have ihrest := ih (fun q hq => hpre q (by simp [hq]))
    simp only [List.cons_append, syncProjectsLoop, hlook, _sync_single_project,
      compute.sync, hqraise, Bool.false_eq_true, ite_false, ihrest, expectedProjectEvents]
    simp [hlook, ihrest]

theorem start_gcp_ingestion_none (env : Env) (config : Config)
    (hc : env.credentials = none) :
    start_gcp_ingestion env config =
      ([Event.log LogLevel.debug credDebugMessage,
        Event.log LogLevel.error credErrorMessage], none) := by
  simp [start_gcp_ingestion, hc]

theorem start_gcp_ingestion_some_err (env : Env) (config : Config)
    (c : Credentials) (evs : List Event) (e0 : RunError)
    (hc : env.credentials = some c)
    (hloop : syncProjectsLoop env (_initialize_resources c) config.update_tag
        (canonicalParams config) env.projects = (evs, some e0)) :
    start_gcp_ingestion env config = (headEvents env config c ++ evs, some e0) := by
  simp only [start_gcp_ingestion, hc, _sync_multiple_projects,
    crm.sync_gcp_organizations, crm.sync_gcp_folders, crm.get_gcp_projects,
    crm.sync_gcp_projects, run_analysis_job, canonicalParams] at *
  simp [hloop, headEvents, canonicalParams]

theorem start_gcp_ingestion_some_ok (env : Env) (config : Config)
    (c : Credentials) (evs : List Event)
    (hc : env.credentials = some c)
    (hloop : syncProjectsLoop env (_initialize_resources c) config.update_tag
        (canonicalParams config) env.projects = (evs, none)) :
    start_gcp_ingestion env config =
      (headEvents env config c ++ evs ++
        [Event.runAnalysisJob "gcp_compute_asset_inet_exposure.json"
          (canonicalParams config)], none) := by
  simp only [start_gcp_ingestion, hc, _sync_multiple_projects,
    crm.sync_gcp_organizations, crm.sync_gcp_folders, crm.get_gcp_projects,
    crm.sync_gcp_projects, run_analysis_job, canonicalParams] at *
  simp [hloop, headEvents, canonicalParams]

theorem headEvents_usesTag (env : Env) (config : Config) (c : Credentials) :
    ∀ e ∈ headEvents env config c,
      eventUsesTag config.update_tag (canonicalParams config) e = true := by
  intro e he
  simp only [headEvents, List.mem_cons, List.not_mem_nil, or_false] at he
  rcases he with rfl | rfl | rfl | rfl | rfl | rfl <;>
    simp [eventUsesTag, tagOf, paramsOf]

theorem syncProjectsLoop_usesTag (env : Env) (resources : Resources) (tag : Nat)
    (ps : Params) (l : List ProjectRecord) :
    ∀ e ∈ (syncProjectsLoop env resources tag ps l).fst,
      eventUsesTag tag ps e = true := by
  induction l with
  | nil =>
    intro e he
    simp [syncProjectsLoop] at he
  | cons p rest ih =>
    intro e he
    cases hlook : List.lookup "projectId" p with
    | none => simp [syncProjectsLoop, hlook] at he
    | some pid =>
      cases hraise : env.computeSyncRaises pid with
      | true =>
        simp only [syncProjectsLoop, hlook, _sync_single_project, compute.sync,
          hraise, ite_true, List.mem_cons, List.mem_singleton] at he
        rcases he with rfl | (rfl | he)
        · simp [eventUsesTag, tagOf, paramsOf]
        · simp [eventUsesTag, tagOf, paramsOf]
        · simp at he
      | false =>
        simp only [syncProjectsLoop, hlook, _sync_single_project, compute.sync,
          hraise, Bool.false_eq_true, ite_false, List.mem_cons, List.cons_append,
          List.mem_append, List.mem_singleton] at he
        rcases he with rfl | (rfl | he)
        · simp [eventUsesTag, tagOf, paramsOf]
        · simp [eventUsesTag, tagOf, paramsOf]
        · exact ih e (by simpa using he)

theorem start_trace_usesTag (env : Env) (config : Config) :
    ∀ e ∈ (start_gcp_ingestion env config).fst,
      eventUsesTag config.update_tag (canonicalParams config) e = true := by
  intro e he
  cases hc : env.credentials with
  | none =>
    rw [start_gcp_ingestion_none env config hc] at he
    simp only [List.mem_cons, List.not_mem_nil, or_false] at he
    rcases he with rfl | rfl <;> simp [eventUsesTag, tagOf, paramsOf]
  | some c =>
    rcases hl : syncProjectsLoop env (_initialize_resources c) config.update_tag
        (canonicalParams config) env.projects with ⟨evs, err⟩
    cases err with
    | some e0 =>
      rw [start_gcp_ingestion_some_err env config c evs e0 hc hl] at he
      simp only [List.mem_append] at he
      rcases he with he | he
      · exact headEvents_usesTag env config c e he
      · have := syncProjectsLoop_usesTag env (_initialize_resources c)
          config.update_tag (canonicalParams config) env.projects e
        rw [hl] at this
        exact this he
    | none =>
      rw [start_gcp_ingestion_some_ok env config c evs hc hl] at he
      simp only [List.mem_append, List.mem_singleton] at he
      rcases he with (he | he) | rfl
      · exact headEvents_usesTag env config c e he
      · have := syncProjectsLoop_usesTag env (_initialize_resources c)
          config.update_tag (canonicalParams config) env.projects e
        rw [hl] at this
        exact this he
      · simp [eventUsesTag, tagOf, paramsOf]

theorem computeCalls_append (a b : List Event) :
    computeCalls (a ++ b) = computeCalls a ++ computeCalls b := by
  simp [computeCalls, List.filterMap_append]

theorem computeCalls_headEvents (env : Env) (config : Config) (c : Credentials) :
    computeCalls (headEvents env config c) = [] := by
  simp [computeCalls, headEvents]

theorem computeCalls_expectedProjectEvents (resources : Resources) (tag : Nat)
    (ps : Params) (l : List ProjectRecord) :
    computeCalls (expectedProjectEvents resources tag ps l) =
      l.map (fun p => ((List.lookup "projectId" p).getD "", tag, ps)) := by
  induction l with
  | nil => simp [computeCalls, expectedProjectEvents]
  | cons p rest ih =>
    simp only [expectedProjectEvents, computeCalls, List.filterMap_cons] at *
    simp [ih]

theorem countAnalysisJobs_append (a b : List Event) :
    countAnalysisJobs (a ++ b) = countAnalysisJobs a + countAnalysisJobs b := by
  simp [countAnalysisJobs, List.filter_append]

theorem countAnalysisJobs_headEvents (env : Env) (config : Config) (c : Credentials) :
    countAnalysisJobs (headEvents env config c) = 0 := by
  simp [countAnalysisJobs, headEvents]

theorem countAnalysisJobs_expectedProjectEvents (resources : Resources) (tag : Nat)
    (ps : Params) (l : List ProjectRecord) :
    countAnalysisJobs (expectedProjectEvents resources tag ps l) = 0 := by
  induction l with
  | nil => simp [countAnalysisJobs, expectedProjectEvents]
  | cons p rest ih =>
    simp only [expectedProjectEvents, countAnalysisJobs, List.filter_cons] at *
    simp [ih]

/-! ## Concrete fixtures used by the witnesses -/

/-- The project list of the scenario in the spec: proj-a then proj-b. -/
def demoProjects : List ProjectRecord :=
  [[("projectId", "proj-a")], [("projectId", "proj-b")]]

/-- An environment in which credential acquisition succeeds, the enumerator
returns `demoProjects`, and no collaborator raises. -/
def demoEnv : Env :=
  { credentials := some 7,
    projects := demoProjects,
    computeSyncRaises := fun _ => false,
    orgsPermissionDenied := false,
    foldersPermissionDenied := false }

/-- An environment in which credential acquisition raises
`ApplicationDefaultCredentialsError`. -/
def envNoCreds : Env :=
  { credentials := none,
    projects := [],
    computeSyncRaises := fun _ => false,
    orgsPermissionDenied := false,
    foldersPermissionDenied := false }

/-- A concrete run configuration. -/
def demoConfig : Config := { update_tag := 161803 }

/-! ## Claims -/

/-- Claim C1: for every run of `start_gcp_ingestion` in which credential
acquisition succeeds, a single update tag value (`config.update_tag`) is used:
every sync call made during the run (organizations, folders, batch projects,
and each per-project compute sync) receives exactly this tag, and the
`common_job_parameters` mapping passed to every one of those calls and to the
analysis job maps `UPDATE_TAG` to this same value. -/
theorem C1_single_update_tag (env : Env) (config : Config) (c : Credentials)
    (_hc : env.credentials = some c) :
    ∀ e ∈ (start_gcp_ingestion env config).fst,
      eventUsesTag config.update_tag (canonicalParams config) e = true :=
  fun e he => start_trace_usesTag env config e he

theorem C1_single_update_tag_witness :
    demoEnv.credentials = some 7 ∧
    Event.syncGcpProjects demoProjects 161803 [("UPDATE_TAG", 161803)] ∈
      (start_gcp_ingestion demoEnv demoConfig).fst ∧
    eventUsesTag 161803 [("UPDATE_TAG", 161803)]
      (Event.syncGcpProjects demoProjects 161803 [("UPDATE_TAG", 161803)]) = true :=
  ⟨rfl, by decide,
   C1_single_update_tag demoEnv demoConfig 7 rfl
     (Event.syncGcpProjects demoProjects 161803 [("UPDATE_TAG", 161803)]) (by decide)⟩

/-- Claim C2: for every run in which credential acquisition raises
`ApplicationDefaultCredentialsError`, `start_gcp_ingestion` returns normally
without raising, and its trace holds only the two logging calls: no resource
handles are constructed and no downstream collaborator (hierarchy sync,
project enumeration, project sync, analysis job) is invoked. -/
theorem C2_credential_failure_no_side_effects (env : Env) (config : Config)
    (hc : env.credentials = none) :
    start_gcp_ingestion env config =
      ([Event.log LogLevel.debug credDebugMessage,
        Event.log LogLevel.error credErrorMessage], none) ∧
    ∀ e ∈ (start_gcp_ingestion env config).fst,
      ∃ level message, e = Event.log level message := by
  refine ⟨start_gcp_ingestion_none env config hc, ?_⟩
  intro e he
  rw [start_gcp_ingestion_none env config hc] at he
  simp only [List.mem_cons, List.not_mem_nil, or_false] at he
  rcases he with rfl | rfl
  · exact ⟨_, _, rfl⟩
  · exact ⟨_, _, rfl⟩

theorem C2_credential_failure_no_side_effects_witness :
    envNoCreds.credentials = none ∧
    (start_gcp_ingestion envNoCreds demoConfig =
      ([Event.log LogLevel.debug credDebugMessage,
        Event.log LogLevel.error credErrorMessage], none) ∧
     ∀ e ∈ (start_gcp_ingestion envNoCreds demoConfig).fst,
       ∃ level message, e = Event.log level message) :=
  ⟨rfl, C2_credential_failure_no_side_effects envNoCreds demoConfig rfl⟩

/-- Claim C9 (implicit): the `common_job_parameters` mapping constructed by
`start_gcp_ingestion` is exactly the one-entry mapping `UPDATE_TAG` to
`config.update_tag`, and this identical one-entry mapping is what every sync
call and the analysis job receives. -/
theorem C9_common_job_parameters_single_entry (env : Env) (config : Config) :
    ∀ e ∈ (start_gcp_ingestion env config).fst, ∀ q, paramsOf e = some q →
      q = [("UPDATE_TAG", config.update_tag)] ∧ q.length = 1 := by
  intro e he q hq
  have h := start_trace_usesTag env config e he
  simp only [eventUsesTag, hq, Bool.and_eq_true, decide_eq_true_eq] at h
  refine ⟨h.2, ?_⟩
  rw [h.2]
  rfl

theorem C9_common_job_parameters_single_entry_witness :
    Event.runAnalysisJob "gcp_compute_asset_inet_exposure.json"
      [("UPDATE_TAG", 161803)] ∈ (start_gcp_ingestion demoEnv demoConfig).fst ∧
    [(("UPDATE_TAG" : String), (161803 : Nat))] = [("UPDATE_TAG", 161803)] ∧
    ([(("UPDATE_TAG" : String), (161803 : Nat))]).length = 1 :=
  ⟨by decide,
   C9_common_job_parameters_single_entry demoEnv demoConfig
     (Event.runAnalysisJob "gcp_compute_asset_inet_exposure.json"
       [("UPDATE_TAG", 161803)]) (by decide)
     [("UPDATE_TAG", 161803)] rfl⟩

/-- Claim C3: for every project list returned by the enumerator in which every
record carries the key `"projectId"` (and, the run completing, no per-project
sync raises), the per-project syncer `compute.sync` is invoked exactly once
per element, in the order the enumerator returned the list, every invocation
receiving the same update tag and the same `common_job_parameters`. -/
theorem C3_per_project_sync_once_each (env : Env) (config : Config)
    (c : Credentials) (hc : env.credentials = some c)
    (hok : ∀ p ∈ env.projects, recordOk env p) :
    computeCalls (start_gcp_ingestion env config).fst =
      env.projects.map (fun p =>
        ((List.lookup "projectId" p).getD "", config.update_tag,
         canonicalParams config)) := by
  have hloop := syncProjectsLoop_ok env (_initialize_resources c) config.update_tag
    (canonicalParams config) env.projects hok
  rw [start_gcp_ingestion_some_ok env config c _ hc hloop]
  rw [computeCalls_append, computeCalls_append, computeCalls_headEvents,
    computeCalls_expectedProjectEvents]
  simp [computeCalls]

theorem demoEnv_recordOk : ∀ p ∈ demoProjects, recordOk demoEnv p := by
  intro p hp
  simp only [demoProjects, List.mem_cons, List.not_mem_nil, or_false] at hp
  rcases hp with rfl | rfl
  · exact ⟨"proj-a", rfl, rfl⟩
  · exact ⟨"proj-b", rfl, rfl⟩

theorem C3_per_project_sync_once_each_witness :
    demoEnv.credentials = some 7 ∧
    (∀ p ∈ demoEnv.projects, recordOk demoEnv p) ∧
    computeCalls (start_gcp_ingestion demoEnv demoConfig).fst =
      demoEnv.projects.map (fun p =>
        ((List.lookup "projectId" p).getD "", demoConfig.update_tag,
         canonicalParams demoConfig)) :=
  ⟨rfl, demoEnv_recordOk,
   C3_per_project_sync_once_each demoEnv demoConfig 7 rfl demoEnv_recordOk⟩

/-- Claim C4: every successful run follows the fixed order credential
acquisition, resource construction, organizations sync, folders sync, project
enumeration, batch project sync, the per-project syncs in list order, and the
analysis job last: the whole trace equals `successTrace` and no exception
propagates.  In particular, with projects `proj-a` and `proj-b` the trace is
the one the spec scenario lists. -/
theorem C4_pipeline_order (env : Env) (config : Config) (c : Credentials)
    (hc : env.credentials = some c)
    (hok : ∀ p ∈ env.projects, recordOk env p) :
    start_gcp_ingestion env config = (successTrace env config c, none) := by
  have hloop := syncProjectsLoop_ok env (_initialize_resources c) config.update_tag
    (canonicalParams config) env.projects hok
  rw [start_gcp_ingestion_some_ok env config c _ hc hloop]
  simp [successTrace]

theorem C4_pipeline_order_witness :
    demoEnv.credentials = some 7 ∧
    (∀ p ∈ demoEnv.projects, recordOk demoEnv p) ∧
    start_gcp_ingestion demoEnv demoConfig =
      (successTrace demoEnv demoConfig 7, none) ∧
    successTrace demoEnv demoConfig 7 =
      [Event.initResources,
       Event.syncOrganizations (Handle.crmV1 7) 161803 [("UPDATE_TAG", 161803)],
       Event.syncFolders (Handle.crmV2 7) 161803 [("UPDATE_TAG", 161803)],
       Event.getProjects (Handle.crmV1 7),
       Event.log LogLevel.debug "Syncing GCP projects.",
       Event.syncGcpProjects demoProjects 161803 [("UPDATE_TAG", 161803)],
       Event.log LogLevel.info "Syncing GCP project proj-a.",
       Event.computeSync (Handle.computeV1 7) "proj-a" 161803 [("UPDATE_TAG", 161803)],
       Event.log LogLevel.info "Syncing GCP project proj-b.",
       Event.computeSync (Handle.computeV1 7) "proj-b" 161803 [("UPDATE_TAG", 161803)],
       Event.runAnalysisJob "gcp_compute_asset_inet_exposure.json"
         [("UPDATE_TAG", 161803)]] :=
  ⟨rfl, demoEnv_recordOk,
   C4_pipeline_order demoEnv demoConfig 7 rfl demoEnv_recordOk, by decide⟩

/-- An environment whose enumerator returns the empty project list. -/
def envEmptyProjects : Env :=
  { credentials := some 7,
    projects := [],
    computeSyncRaises := fun _ => false,
    orgsPermissionDenied := false,
    foldersPermissionDenied := false }

/-- Claim C6: every run that reaches project enumeration and completes (in
particular when the enumerator returns the empty list) still invokes the
batch project sync `sync_gcp_projects` with the enumerated list, and invokes
the analysis job exactly once, with `common_job_parameters`, and returns
without raising. -/
theorem C6_batch_sync_and_analysis_always_run (env : Env) (config : Config)
    (c : Credentials) (hc : env.credentials = some c)
    (hok : ∀ p ∈ env.projects, recordOk env p) :
    Event.syncGcpProjects env.projects config.update_tag (canonicalParams config) ∈
      (start_gcp_ingestion env config).fst ∧
    countAnalysisJobs (start_gcp_ingestion env config).fst = 1 ∧
    Event.runAnalysisJob "gcp_compute_asset_inet_exposure.json"
      (canonicalParams config) ∈ (start_gcp_ingestion env config).fst ∧
    (start_gcp_ingestion env config).snd = none := by
  have hloop := syncProjectsLoop_ok env (_initialize_resources c) config.update_tag
    (canonicalParams config) env.projects hok
  rw [start_gcp_ingestion_some_ok env config c _ hc hloop]
  refine ⟨?_, ?_, ?_, rfl⟩
  · simp [headEvents]
  · rw [countAnalysisJobs_append, countAnalysisJobs_append,
      countAnalysisJobs_headEvents, countAnalysisJobs_expectedProjectEvents]
    simp [countAnalysisJobs]
  · simp

theorem C6_batch_sync_and_analysis_always_run_witness :
    envEmptyProjects.credentials = some 7 ∧
    (∀ p ∈ envEmptyProjects.projects, recordOk envEmptyProjects p) ∧
    (Event.syncGcpProjects envEmptyProjects.projects demoConfig.update_tag
       (canonicalParams demoConfig) ∈
       (start_gcp_ingestion envEmptyProjects demoConfig).fst ∧
     countAnalysisJobs (start_gcp_ingestion envEmptyProjects demoConfig).fst = 1 ∧
     Event.runAnalysisJob "gcp_compute_asset_inet_exposure.json"
       (canonicalParams demoConfig) ∈
       (start_gcp_ingestion envEmptyProjects demoConfig).fst ∧
     (start_gcp_ingestion envEmptyProjects demoConfig).snd = none) :=
  ⟨rfl, fun p hp => absurd hp (List.not_mem_nil p),
   C6_batch_sync_and_analysis_always_run envEmptyProjects demoConfig 7 rfl
     (fun p hp => absurd hp (List.not_mem_nil p))⟩

/-- An environment in which the per-project sync of proj-b raises. -/
def envRaises : Env :=
  { credentials := some 7,
    projects := demoProjects,
    computeSyncRaises := fun s => s == "proj-b",
    orgsPermissionDenied := false,
    foldersPermissionDenied := false }

/-- Claim C5: per-project sync failures are not caught at the orchestrator
level: if the per-project sync of the i-th project raises, the exception
propagates out of `start_gcp_ingestion`, the projects after position i are
not synced (the `compute.sync` invocations are exactly those for positions up
to and including i), and the analysis job is not invoked. -/
theorem C5_per_project_failure_propagates (env : Env) (config : Config)
    (c : Credentials) (pre post : List ProjectRecord) (bad : ProjectRecord)
    (pid : String)
    (hc : env.credentials = some c)
    (hsplit : env.projects = pre ++ bad :: post)
    (hpre : ∀ p ∈ pre, recordOk env p)
    (hbad : List.lookup "projectId" bad = some pid)
    (hraise : env.computeSyncRaises pid = true) :
    (start_gcp_ingestion env config).snd = some (RunError.computeSyncError pid) ∧
    countAnalysisJobs (start_gcp_ingestion env config).fst = 0 ∧
    computeCalls (start_gcp_ingestion env config).fst =
      pre.map (fun p => ((List.lookup "projectId" p).getD "", config.update_tag,
        canonicalParams config)) ++
      [(pid, config.update_tag, canonicalParams config)] := by
  have hloop := syncProjectsLoop_raise env (_initialize_resources c)
    config.update_tag (canonicalParams config) pre post bad pid hpre hbad hraise
  have hloop2 : syncProjectsLoop env (_initialize_resources c) config.update_tag
      (canonicalParams config) env.projects =
      (expectedProjectEvents (_initialize_resources c) config.update_tag
         (canonicalParams config) pre ++
         [Event.log LogLevel.info ("Syncing GCP project " ++ pid ++ "."),
          Event.computeSync (_initialize_resources c).compute pid config.update_tag
            (canonicalParams config)],
       some (RunError.computeSyncError pid)) := by
    rw [hsplit]
    exact hloop
  rw [start_gcp_ingestion_some_err env config c _ _ hc hloop2]
  refine ⟨rfl, ?_, ?_⟩
  · rw [countAnalysisJobs_append, countAnalysisJobs_headEvents,
      countAnalysisJobs_append, countAnalysisJobs_expectedProjectEvents]
    simp [countAnalysisJobs]
  · rw [computeCalls_append, computeCalls_headEvents, computeCalls_append,
      computeCalls_expectedProjectEvents]
    simp [computeCalls]

theorem C5_per_project_failure_propagates_witness :
    envRaises.credentials = some 7 ∧
    envRaises.projects = [[("projectId", "proj-a")]] ++ [("projectId", "proj-b")] :: [] ∧
    List.lookup "projectId" [("projectId", "proj-b")] = some "proj-b" ∧
    envRaises.computeSyncRaises "proj-b" = true ∧
    ((start_gcp_ingestion envRaises demoConfig).snd =
       some (RunError.computeSyncError "proj-b") ∧
     countAnalysisJobs (start_gcp_ingestion envRaises demoConfig).fst = 0 ∧
     computeCalls (start_gcp_ingestion envRaises demoConfig).fst =
       ([[("projectId", "proj-a")]] : List ProjectRecord).map
         (fun p => ((List.lookup "projectId" p).getD "", demoConfig.update_tag,
           canonicalParams demoConfig)) ++
       [("proj-b", demoConfig.update_tag, canonicalParams demoConfig)]) :=
  ⟨rfl, rfl, rfl, rfl,
   C5_per_project_failure_propagates envRaises demoConfig 7
     [[("projectId", "proj-a")]] [] [("projectId", "proj-b")] "proj-b" rfl rfl
     (by
       intro p hp
       simp only [List.mem_singleton] at hp
       subst hp
       exact ⟨"proj-a", rfl, rfl⟩)
     rfl rfl⟩

/-- An environment in which both hierarchy listings hit a permission error. -/
def envPermDenied : Env :=
  { credentials := some 7,
    projects := demoProjects,
    computeSyncRaises := fun _ => false,
    orgsPermissionDenied := true,
    foldersPermissionDenied := true }

/-- Claim C7 (spec-modelled: `crm.sync_gcp_organizations` and
`crm.sync_gcp_folders` are not under src/, so their permission-absorbing
behaviour is modelled from spec section 4.2): a permission error during the
organizations or folders hierarchy listing changes nothing about the run — the
trace and the propagated exception are those of the run without the permission
error — and the run still proceeds to project enumeration. -/
theorem syncProjectsLoop_permIrrel (cred : Option Credentials)
    (projs : List ProjectRecord) (raises : String → Bool) (o f b1 b2 : Bool)
    (resources : Resources) (tag : Nat) (ps : Params) (l : List ProjectRecord) :
    syncProjectsLoop ⟨cred, projs, raises, b1, b2⟩ resources tag ps l =
      syncProjectsLoop ⟨cred, projs, raises, o, f⟩ resources tag ps l := by
  induction l with
  | nil => rfl
  | cons p rest ih =>
    cases hlook : List.lookup "projectId" p with
    | none => simp [syncProjectsLoop, hlook]
    | some pid =>
      simp only [syncProjectsLoop, hlook, _sync_single_project, compute.sync]
      rw [ih]

theorem start_gcp_ingestion_permIrrel (env : Env) (config : Config) (b1 b2 : Bool) :
    start_gcp_ingestion
        { env with orgsPermissionDenied := b1, foldersPermissionDenied := b2 } config =
      start_gcp_ingestion env config := by
  obtain ⟨cred, projs, raises, o, f⟩ := env
  cases cred with
  | none =>
    rw [start_gcp_ingestion_none ⟨none, projs, raises, b1, b2⟩ config rfl,
      start_gcp_ingestion_none ⟨none, projs, raises, o, f⟩ config rfl]
  | some c =>
    rcases hl : syncProjectsLoop ⟨some c, projs, raises, o, f⟩
        (_initialize_resources c) config.update_tag (canonicalParams config)
        projs with ⟨evs, err⟩
    have hl2 : syncProjectsLoop ⟨some c, projs, raises, b1, b2⟩
        (_initialize_resources c) config.update_tag (canonicalParams config)
        projs = (evs, err) :=
      (syncProjectsLoop_permIrrel (some c) projs raises o f b1 b2
        (_initialize_resources c) config.update_tag (canonicalParams config)
        projs).trans hl
    cases err with
    | some e0 =>
      rw [start_gcp_ingestion_some_err ⟨some c, projs, raises, b1, b2⟩
          config c evs e0 rfl hl2,
        start_gcp_ingestion_some_err ⟨some c, projs, raises, o, f⟩
          config c evs e0 rfl hl]
      rfl
    | none =>
      rw [start_gcp_ingestion_some_ok ⟨some c, projs, raises, b1, b2⟩
          config c evs rfl hl2,
        start_gcp_ingestion_some_ok ⟨some c, projs, raises, o, f⟩
          config c evs rfl hl]
      rfl

theorem C7_hierarchy_permission_error_absorbed (env : Env) (config : Config)
    (c : Credentials) (hc : env.credentials = some c) :
    (∀ b1 b2, start_gcp_ingestion
        { env with orgsPermissionDenied := b1, foldersPermissionDenied := b2 } config =
      start_gcp_ingestion env config) ∧
    Event.getProjects (_initialize_resources c).crm_v1 ∈
      (start_gcp_ingestion env config).fst := by
  refine ⟨fun b1 b2 => start_gcp_ingestion_permIrrel env config b1 b2, ?_⟩
  rcases hl : syncProjectsLoop env (_initialize_resources c) config.update_tag
      (canonicalParams config) env.projects with ⟨evs, err⟩
  cases err with
  | some e0 =>
    rw [start_gcp_ingestion_some_err env config c evs e0 hc hl]
    simp [headEvents]
  | none =>
    rw [start_gcp_ingestion_some_ok env config c evs hc hl]
    simp [headEvents]

theorem C7_hierarchy_permission_error_absorbed_witness :
    envPermDenied.credentials = some 7 ∧
    ((∀ b1 b2, start_gcp_ingestion
        { envPermDenied with orgsPermissionDenied := b1, foldersPermissionDenied := b2 }
        demoConfig =
       start_gcp_ingestion envPermDenied demoConfig) ∧
     Event.getProjects (_initialize_resources 7).crm_v1 ∈
       (start_gcp_ingestion envPermDenied demoConfig).fst) :=
  ⟨rfl, C7_hierarchy_permission_error_absorbed envPermDenied demoConfig 7 rfl⟩

/-- Claim C8 counterexample: at a concrete run in which credential acquisition
fails, the orchestrator emits zero warning-level diagnostics (its two
diagnostics are at debug and at error level), so the claim that exactly one
warning-level diagnostic is produced is false on the code. -/
theorem C8_counterexample_no_warning_diagnostic :
    countLogsAt LogLevel.warning
      (start_gcp_ingestion envNoCreds demoConfig).fst ≠ 1 := by
  decide

/-- Claim C8 (amended): when credential acquisition fails, exactly one
error-level diagnostic is produced (alongside one debug-level diagnostic and
no warning-level one); the error-level diagnostic is `credErrorMessage`,
which names the likely remediation (the credential configuration and the
securityReviewer role), and the run ends without raising further. -/
theorem C8_credential_failure_single_error_diagnostic (env : Env)
    (config : Config) (hc : env.credentials = none) :
    countLogsAt LogLevel.error (start_gcp_ingestion env config).fst = 1 ∧
    countLogsAt LogLevel.debug (start_gcp_ingestion env config).fst = 1 ∧
    countLogsAt LogLevel.warning (start_gcp_ingestion env config).fst = 0 ∧
    Event.log LogLevel.error credErrorMessage ∈
      (start_gcp_ingestion env config).fst ∧
    (start_gcp_ingestion env config).snd = none := by
  rw [start_gcp_ingestion_none env config hc]
  refine ⟨?_, ?_, ?_, ?_, rfl⟩ <;> simp [countLogsAt]

theorem C8_credential_failure_single_error_diagnostic_witness :
    envNoCreds.credentials = none ∧
    (countLogsAt LogLevel.error (start_gcp_ingestion envNoCreds demoConfig).fst = 1 ∧
     countLogsAt LogLevel.debug (start_gcp_ingestion envNoCreds demoConfig).fst = 1 ∧
     countLogsAt LogLevel.warning (start_gcp_ingestion envNoCreds demoConfig).fst = 0 ∧
     Event.log LogLevel.error credErrorMessage ∈
       (start_gcp_ingestion envNoCreds demoConfig).fst ∧
     (start_gcp_ingestion envNoCreds demoConfig).snd = none) :=
  ⟨rfl, C8_credential_failure_single_error_diagnostic envNoCreds demoConfig rfl⟩

/-- An environment whose second project record lacks the `"projectId"` key. -/
def envBadRecord : Env :=
  { credentials := some 7,
    projects := [[("projectId", "proj-a")], [("name", "no-id")],
                 [("projectId", "proj-c")]],
    computeSyncRaises := fun _ => false,
    orgsPermissionDenied := false,
    foldersPermissionDenied := false }

/-- Claim C10 (implicit): if a project record returned by the enumerator lacks
the `"projectId"` key, `_sync_multiple_projects` raises a `KeyError` when the
loop reaches that record — after the batch project sync and the per-project
syncs of all earlier records have already been performed — so earlier writes
are not undone, no later project is synced, and the analysis job never runs. -/
theorem C10_missing_project_id_key_error (env : Env) (config : Config)
    (c : Credentials) (pre post : List ProjectRecord) (bad : ProjectRecord)
    (hc : env.credentials = some c)
    (hsplit : env.projects = pre ++ bad :: post)
    (hpre : ∀ p ∈ pre, recordOk env p)
    (hbad : List.lookup "projectId" bad = none) :
    (start_gcp_ingestion env config).snd = some (RunError.keyError "projectId") ∧
    Event.syncGcpProjects env.projects config.update_tag (canonicalParams config) ∈
      (start_gcp_ingestion env config).fst ∧
    computeCalls (start_gcp_ingestion env config).fst =
      pre.map (fun p => ((List.lookup "projectId" p).getD "", config.update_tag,
        canonicalParams config)) ∧
    countAnalysisJobs (start_gcp_ingestion env config).fst = 0 := by
  have hloop := syncProjectsLoop_keyError env (_initialize_resources c)
    config.update_tag (canonicalParams config) pre post bad hpre hbad
  have hloop2 : syncProjectsLoop env (_initialize_resources c) config.update_tag
      (canonicalParams config) env.projects =
      (expectedProjectEvents (_initialize_resources c) config.update_tag
         (canonicalParams config) pre,
       some (RunError.keyError "projectId")) := by
    rw [hsplit]
    exact hloop
  rw [start_gcp_ingestion_some_err env config c _ _ hc hloop2]
  refine ⟨rfl, ?_, ?_, ?_⟩
  · simp [headEvents]
  · rw [computeCalls_append, computeCalls_headEvents,
      computeCalls_expectedProjectEvents]
    simp
  · rw [countAnalysisJobs_append, countAnalysisJobs_headEvents,
      countAnalysisJobs_expectedProjectEvents]

theorem C10_missing_project_id_key_error_witness :
    envBadRecord.credentials = some 7 ∧
    envBadRecord.projects =
      [[("projectId", "proj-a")]] ++
        [("name", "no-id")] :: [[("projectId", "proj-c")]] ∧
    List.lookup "projectId" [("name", "no-id")] = none ∧
    ((start_gcp_ingestion envBadRecord demoConfig).snd =
       some (RunError.keyError "projectId") ∧
     Event.syncGcpProjects envBadRecord.projects demoConfig.update_tag
       (canonicalParams demoConfig) ∈
       (start_gcp_ingestion envBadRecord demoConfig).fst ∧
     computeCalls (start_gcp_ingestion envBadRecord demoConfig).fst =
       ([[("projectId", "proj-a")]] : List ProjectRecord).map
         (fun p => ((List.lookup "projectId" p).getD "", demoConfig.update_tag,
           canonicalParams demoConfig)) ∧
     countAnalysisJobs (start_gcp_ingestion envBadRecord demoConfig).fst = 0) :=
  ⟨rfl, rfl, rfl,
   C10_missing_project_id_key_error envBadRecord demoConfig 7
     [[("projectId", "proj-a")]] [[("projectId", "proj-c")]] [("name", "no-id")]
     rfl rfl
     (by
       intro p hp
       simp only [List.mem_singleton] at hp
       subst hp
       exact ⟨"proj-a", rfl, rfl⟩)
     rfl⟩
